import Mathlib

/-!
Verification development for the Python 3 execution-gateway bridge
(`python_bridge.py`).  The bridge is a persistent subprocess that reads
line-delimited JSON requests, validates submitted code against a
privilege tier (`RESTRICTED` or `ADMIN`), executes or evaluates it
against a persistent globals mapping, and writes one JSON response per
request.

The embedding below is shallow: pure Python logic (the security policy
engine, the dispatcher shapes, response construction, the session loop)
is translated directly; calls into the Python interpreter or operating
system (`exec`, `eval`, `subprocess.run`, `ast.parse`, pyflakes) are
oracles passed in as explicit function parameters, so every theorem
quantifies over their behaviour.
-/

namespace PyBridge

/-- Python values, as far as the bridge manipulates them: the
JSON-serialisable scalars and containers, plus abstract markers for
the import hook and the builtins object that the bridge installs into
the execution scope, and a catch-all textual representation for other
objects. Byte strings are carried in already-decoded form since the
decoding itself is done by the interpreter. -/
inductive Value where
  | none
  | bool (b : Bool)
  | int (n : Int)
  | str (s : String)
  | list (xs : List Value)
  | dict (xs : List (String × Value))
  | set (xs : List Value)
  | bytes (decoded : String)
  | obj (text : String)
  | importHook (mode : String)
  | builtinsObj (restricted : Bool)

/-- Association list standing for a Python dict with string keys
(the bridge only ever keys its dicts by identifier strings). -/
abbrev AList := List (String × Value)

/-- Python `str.upper()` (ASCII case mapping suffices for the module
names and patterns the bridge matches). -/
def pyUpper (s : String) : String := String.mk (s.toList.map Char.toUpper)

/-- Containment of one character list in another. -/
def isInfixList (pat : List Char) : List Char → Bool
  | [] => pat.isEmpty
  | b :: bs => pat.isPrefixOf (b :: bs) || isInfixList pat bs

/-- Python substring test `pat in hay` (case-sensitive). -/
def strContains (hay pat : String) : Bool := isInfixList pat.toList hay.toList

/-- Case-insensitive containment, as realised by uppercasing both sides. -/
def upperContains (hay pat : String) : Bool := strContains (pyUpper hay) (pyUpper pat)

/-- Insertion of a string into a sorted list, for `sorted(...)`. -/
def insertSorted (x : String) : List String → List String
  | [] => [x]
  | y :: ys => if x ≤ y then x :: y :: ys else y :: insertSorted x ys

/-- Python `sorted` on a list of strings (insertion sort). -/
def pySorted (l : List String) : List String := l.foldr insertSorted []

/-- The `safe_modules` set: modules allowed in RESTRICTED mode. -/
def safe_modules : List String :=
  ["math", "json", "datetime", "itertools", "collections",
   "decimal", "random", "re", "statistics", "time", "calendar",
   "uuid", "hashlib", "base64", "string", "textwrap",
   "difflib", "enum", "functools", "operator", "copy",
   "ast"]

/-- The `admin_modules` set: modules allowed only in ADMIN mode. -/
def admin_modules : List String :=
  ["os", "subprocess", "sys", "socket", "urllib", "requests",
   "http", "ftplib", "smtplib", "pathlib", "shutil", "glob",
   "tempfile", "sqlite3", "csv", "xml", "pandas", "numpy",
   "pickle", "shelve", "dbm"]

/-- The `always_blocked_modules` set: modules blocked even for admins. -/
def always_blocked_modules : List String :=
  ["telnetlib", "paramiko", "pty", "tty", "termios",
   "fcntl", "pipes", "posix", "pwd", "grp", "crypt",
   "ctypes", "multiprocessing", "threading", "asyncio",
   "concurrent", "__builtin__", "builtins"]

/-- The `blocked_functions` set: built-ins blocked in RESTRICTED mode. -/
def blocked_functions : List String :=
  ["__import__", "eval", "exec", "compile", "open",
   "input", "raw_input", "file", "execfile", "reload",
   "vars", "locals", "globals", "dir", "getattr", "setattr",
   "delattr", "hasattr"]

/-- The `dangerous_patterns` table of `_validate_code_security`:
uppercase pattern paired with the human-readable description used in
the violation message. -/
def dangerous_patterns : List (String × String) :=
  [("EVAL(", "eval()"), ("EXEC(", "exec()"), ("__IMPORT__", "__import__"),
   ("COMPILE(", "compile()"), ("OPEN(", "open()"),
   ("SUBPROCESS.", "subprocess"), ("OS.", "os module"),
   ("SYS.", "sys module"), ("SOCKET.", "socket module")]

/-- The plain import-shape check: the uppercased pattern `IMPORT M` contained in the uppercased code. -/
def importHit (code m : String) : Bool :=
  strContains (pyUpper code) ("IMPORT " ++ pyUpper m)

/-- The from-import-shape check: the uppercased pattern `FROM M IMPORT` contained in the uppercased code. -/
def fromImportHit (code m : String) : Bool :=
  strContains (pyUpper code) ("FROM " ++ pyUpper m ++ " IMPORT")

/-- The sorted, comma-joined allowed-module list interpolated into
RESTRICTED-mode violation messages. -/
def allowedModulesStr : String := String.intercalate ", " (pySorted safe_modules)

/-- The sorted, comma-joined ADMIN whitelist (`safe_modules | admin_modules`). -/
def allowedAdminStr : String :=
  String.intercalate ", " (pySorted (safe_modules ++ admin_modules))

/-- First loop of `_validate_code_security`: scan for always-blocked
module import shapes, at every security mode. -/
def checkAlwaysBlocked (code : String) : Except String Unit :=
  match always_blocked_modules.find? (fun m => importHit code m || fromImportHit code m) with
  | some m =>
      .error ("Security violation: Module \x27" ++ m ++ "\x27 is always blocked for security reasons")
  | Option.none => .ok ()

/-- The violation message for an admin-only module import at
RESTRICTED: `Import of` when the plain import shape matched, otherwise
`Import from`; both carry the allowed-module list. -/
def adminImportMsg (code m : String) : String :=
  if importHit code m then
    "Security violation: Import of \x27" ++ m ++ "\x27 requires Administrator role. Allowed modules: " ++ allowedModulesStr
  else
    "Security violation: Import from \x27" ++ m ++ "\x27 requires Administrator role. Allowed modules: " ++ allowedModulesStr

/-- RESTRICTED-mode scan for admin-only module import shapes. -/
def checkAdminImports (code : String) : Except String Unit :=
  match admin_modules.find? (fun m => importHit code m || fromImportHit code m) with
  | some m => .error (adminImportMsg code m)
  | Option.none => .ok ()

/-- RESTRICTED-mode scan for blocked built-in names, matched as plain
substrings of the code (case-sensitively and after uppercasing). -/
def checkBlockedFunctions (code : String) : Except String Unit :=
  match blocked_functions.find? (fun f => strContains code f || strContains (pyUpper code) (pyUpper f)) with
  | some f =>
      .error ("Security violation: Function \x27" ++ f ++ "\x27 requires Administrator role")
  | Option.none => .ok ()

/-- RESTRICTED-mode scan for dangerous call-site patterns. -/
def checkDangerousPatterns (code : String) : Except String Unit :=
  match dangerous_patterns.find? (fun pd => strContains (pyUpper code) pd.1) with
  | some pd =>
      .error ("Security violation: Use of " ++ pd.2 ++ " requires Administrator role")
  | Option.none => .ok ()

/-- The validator `_validate_code_security(code, security_mode)`: raising
`SecurityException msg` is modelled as `.error msg`.  The ADMIN-mode
audit logging is a side effect only (modelled by `adminAuditLog`). -/
def validateCodeSecurity (code : String) (security_mode : String) : Except String Unit :=
  match checkAlwaysBlocked code with
  | .error e => .error e
  | .ok _ =>
    if security_mode = "RESTRICTED" then
      match checkAdminImports code with
      | .error e => .error e
      | .ok _ =>
        match checkBlockedFunctions code with
        | .error e => .error e
        | .ok _ => checkDangerousPatterns code
    else .ok ()

/-- The stderr audit lines printed by the ADMIN branch of
`_validate_code_security` (logging only, never blocking). -/
def adminAuditLog (code : String) : List String :=
  (admin_modules.filter (fun m => importHit code m || fromImportHit code m)).map
    (fun m => "ADMIN MODE: Using privileged module \x27" ++ m ++ "\x27")

/-- Python name.split on a dot, first element: the prefix of the name
before the first dot (the whole name when it has no dot). -/
def firstComponent (name : String) : String :=
  String.mk (name.toList.takeWhile (fun c => c != '.'))

/-- The import gate `_safe_import(name, security_mode)` up to the final
`importlib.import_module(name)` call, which is the job of the interpreter:
`.ok ()` means the gate lets the import proceed, `.error msg` models
the raised `ImportError`. -/
def safeImport (name : String) (security_mode : String) : Except String Unit :=
  if name ∈ always_blocked_modules || firstComponent name ∈ always_blocked_modules then
    .error ("Module \x27" ++ name ++ "\x27 is always blocked for security reasons")
  else if security_mode = "RESTRICTED" then
    if name ∈ safe_modules || firstComponent name ∈ safe_modules then .ok ()
    else
      .error ("Module \x27" ++ name ++ "\x27 requires Administrator role. Allowed modules: " ++ allowedModulesStr)
  else if security_mode = "ADMIN" then
    if name ∈ safe_modules ++ admin_modules || firstComponent name ∈ safe_modules ++ admin_modules then .ok ()
    else
      .error ("Module \x27" ++ name ++ "\x27 is not in the approved whitelist. Allowed modules: " ++ allowedAdminStr)
  else .ok ()

/-- An `Except` value is an error. -/
def isErr {ε α : Type} : Except ε α → Bool
  | .error _ => true
  | .ok _ => false

/-- A raised Python exception as it surfaces in a response: its message
(`str(e)`) and the formatted traceback text. -/
structure PyErr where
  msg : String
  tb : String

/-- Outcome of a successful `exec` of user code: the fresh
`exec_locals` dict produced by the run and the text captured from
standard output. -/
structure RunOut where
  locals : AList
  captured : String

/-- The interpreter-dependent ingredients of `execute_code` and
`evaluate_expression`: the result of `__builtins__.items()` in the
bridge module (an `AttributeError` when `__builtins__` is the builtins
module, as it is when the script runs as `__main__`), the
`__builtins__` object itself as installed in ADMIN mode, and the
`exec` / `eval` primitives acting on a scope. -/
structure Ambient where
  builtinsItems : Except PyErr (List (String × Value))
  fullBuiltins : Value
  pyExec : String → AList → Except PyErr RunOut
  pyEval : String → AList → Except PyErr Value

/-- Python dict lookup `d[k]` / `d.get(k)`. -/
def alookup (d : AList) (k : String) : Option Value :=
  (d.find? (fun p => p.1 == k)).map (fun p => p.2)

/-- Python dict assignment `d[k] = v`: replaces the binding in place
when the key exists, appends it otherwise. -/
def aset : AList → String → Value → AList
  | [], k, v => [(k, v)]
  | (k0, v0) :: rest, k, v =>
      if k0 == k then (k, v) :: rest else (k0, v0) :: aset rest k v

/-- Python `d.update(u)`: assign every binding of `u` into `d`, in
order. -/
def aupdate (d : AList) : AList → AList
  | [] => d
  | (k, v) :: rest => aupdate (aset d k v) rest

/-- The dict comprehension building `safe_builtins`: every builtin
whose name is not in `blocked_functions`. -/
def safeBuiltinsOf (items : List (String × Value)) : List (String × Value) :=
  items.filter (fun kv => !(blocked_functions.contains kv.1))

/-- The scope both `execute_code` and `evaluate_expression` run
against: the globals copy, updated with the request-supplied
variables, then the `__import__` override and the `__builtins__`
replacement assigned on top. -/
def buildScope (globals : AList) (vars : Option AList) (security_mode : String) (builtinsVal : Value) : AList :=
  aset
    (aset
      (match vars with
       | Option.none => globals
       | some vs => aupdate globals vs)
      "__import__" (Value.importHook security_mode))
    "__builtins__" builtinsVal

/-- The `__builtins__` value computation of `execute_code` /
`evaluate_expression`: in RESTRICTED mode the filtered copy of
`__builtins__.items()` (which can itself raise), in any other mode the
full builtins object. -/
def builtinsFor (amb : Ambient) (security_mode : String) : Except PyErr Value :=
  if security_mode = "RESTRICTED" then
    amb.builtinsItems.map (fun items => Value.dict (safeBuiltinsOf items))
  else
    .ok amb.fullBuiltins

/-!
`_serialize`: scalars unchanged, lists/tuples and dict values recurse,
sets become lists of their raw elements (the source does not recurse
into them), bytes become their decoded text, anything else its textual
representation.
-/
mutual

/-- Serialisation of a single value (`_serialize`). -/
def serialize : Value → Value
  | .none => .none
  | .bool b => .bool b
  | .int n => .int n
  | .str s => .str s
  | .list xs => .list (serializeList xs)
  | .dict xs => .dict (serializePairs xs)
  | .set xs => .list xs
  | .bytes s => .str s
  | .obj t => .str t
  | .importHook _ => .str "<function <lambda>>"
  | .builtinsObj _ => .str "<module \x27builtins\x27>"

def serializeList : List Value → List Value
  | [] => []
  | x :: xs => serialize x :: serializeList xs

def serializePairs : List (String × Value) → List (String × Value)
  | [] => []
  | (k, v) :: xs => (k, serialize v) :: serializePairs xs

end

/-- A response dict as written back to the host: `success` is always
present; every other key is `Option`al, `Option.none` meaning the key
is absent from the dict. -/
structure Response where
  success : Bool
  result : Option Value := Option.none
  output : Option String := Option.none
  error : Option String := Option.none
  traceback : Option String := Option.none
  stdout : Option String := Option.none
  stderr : Option String := Option.none
  exitCode : Option Int := Option.none

/-- The response built in the `except SecurityException` branches:
message prefixed with SECURITY ERROR and an empty traceback, never the
internal stack trace. -/
def secErrorResponse (m : String) : Response :=
  { success := false, error := some ("SECURITY ERROR: " ++ m), traceback := some "" }

/-- The response built in the generic `except Exception` branches of
`execute_code` / `evaluate_expression`. -/
def runtimeErrorResponse (e : PyErr) : Response :=
  { success := false, error := some e.msg, traceback := some e.tb }

/-- The operation `execute_code(code, variables, security_mode)` acting on the
persistent `globals_dict`; returns the response together with the new
`globals_dict`. -/
def execute_code (amb : Ambient) (globals : AList) (code : String)
    (vars : Option AList) (security_mode : String) : Response × AList :=
  match validateCodeSecurity code security_mode with
  | .error m => (secErrorResponse m, globals)
  | .ok _ =>
    match builtinsFor amb security_mode with
    | .error e => (runtimeErrorResponse e, globals)
    | .ok bv =>
      match amb.pyExec code (buildScope globals vars security_mode bv) with
      | .error e => (runtimeErrorResponse e, globals)
      | .ok out =>
        let newGlobals := aupdate globals out.locals
        let resultVal : Value :=
          match alookup out.locals "result" with
          | some v => v
          | Option.none => if out.captured = "" then Value.none else Value.str out.captured
        ({ success := true,
           result := some (serialize resultVal),
           output := if out.captured = "" then Option.none else some out.captured },
         newGlobals)

/-- The operation `evaluate_expression(expression, variables, security_mode)`:
identical gating and scope construction, a single `eval`, no output
capture, and no write-back into `globals_dict`. -/
def evaluate_expression (amb : Ambient) (globals : AList) (expression : String)
    (vars : Option AList) (security_mode : String) : Response × AList :=
  match validateCodeSecurity expression security_mode with
  | .error m => (secErrorResponse m, globals)
  | .ok _ =>
    match builtinsFor amb security_mode with
    | .error e => (runtimeErrorResponse e, globals)
    | .ok bv =>
      match amb.pyEval expression (buildScope globals vars security_mode bv) with
      | .error e => (runtimeErrorResponse e, globals)
      | .ok v => ({ success := true, result := some (serialize v) }, globals)

/-- Outcome of `subprocess.run(command, shell=True, ..., timeout=t)`. -/
inductive ShellRes where
  | done (out err : String) (returncode : Int)
  | timedOut
  | exc (e : PyErr)

/-- The operation `execute_shell(command, timeout)`: completion reports the two
streams and exit code; `subprocess.TimeoutExpired` yields a failure
with exit code -1 and empty streams; any other exception likewise but
with a traceback. -/
def execute_shell (runShell : String → Int → ShellRes) (command : String) (timeout : Int) : Response :=
  match runShell command timeout with
  | .done out err rc =>
      { success := rc == 0,
        stdout := some out, stderr := some err, exitCode := some rc,
        result := some (Value.dict
          [("stdout", Value.str out), ("stderr", Value.str err), ("exitCode", Value.int rc)]) }
  | .timedOut =>
      { success := false,
        error := some ("Command timed out after " ++ toString timeout ++ " seconds"),
        stdout := some "", stderr := some "", exitCode := some (-1) }
  | .exc e =>
      { success := false, error := some e.msg, traceback := some e.tb,
        stdout := some "", stderr := some "", exitCode := some (-1) }

/-- The data carried by a Python `SyntaxError` as `check_syntax` reads
it: `lineno`, `offset` and `msg` attributes (each possibly `None`), and
`str(e)` as fallback message text. -/
structure SynErr where
  lineno : Option Int
  offset : Option Int
  msg : Option String
  excStr : String

/-- A positioned diagnostic as `check_syntax` reports it. -/
structure Diagnostic where
  line : Int
  column : Int
  message : String
  severity : String

/-- Python truthiness default `x if x else d` for an optional integer
attribute (both `None` and `0` fall back to the default). -/
def pyTruthyInt (x : Option Int) (d : Int) : Int :=
  match x with
  | some n => if n = 0 then d else n
  | Option.none => d

/-- Python truthiness default for an optional string attribute (both
`None` and the empty string fall back). -/
def pyTruthyStr (x : Option String) (d : String) : String :=
  match x with
  | some s => if s = "" then d else s
  | Option.none => d

/-- The single error-severity diagnostic built from a `SyntaxError`:
`e.lineno if e.lineno else 1`, `e.offset if e.offset else 0`,
`str(e.msg) if e.msg else str(e)`. -/
def syntaxErrorDiag (e : SynErr) : Diagnostic :=
  { line := pyTruthyInt e.lineno 1,
    column := pyTruthyInt e.offset 0,
    message := pyTruthyStr e.msg e.excStr,
    severity := "error" }

/-- Python colon-split limited to three splits, the remainder rejoined
into the fourth part. -/
def pySplitColon3 (s : String) : List String :=
  match s.splitOn ":" with
  | a :: b :: c :: d :: rest => [a, b, c, String.intercalate ":" (d :: rest)]
  | parts => parts

/-- Python `s.strip().isdigit()`. -/
def pyIsDigitStr (s : String) : Bool :=
  !(s.trim.toList.isEmpty) && s.trim.toList.all Char.isDigit

/-- Python `int(s)` as used on pyflakes fields: `Option.none` models the
`ValueError` that the surrounding `try` swallows. -/
def pyInt (s : String) : Option Int := s.trim.toInt?

/-- Parsing of one line of pyflakes output, format
`<string>:line:col: message`; a malformed line contributes nothing. -/
def parseFlakeLine (line : String) : Option Diagnostic :=
  if line = "" then Option.none
  else
    match pySplitColon3 line with
    | _ :: p1 :: p2 :: p3 :: _ =>
        match pyInt p1 with
        | Option.none => Option.none
        | some lineNum =>
            let colNum : Int := if pyIsDigitStr p2 then (pyInt p2).getD 0 else 0
            some { line := lineNum, column := colNum, message := p3.trim, severity := "warning" }
    | _ => Option.none

/-- Processing of the captured pyflakes warning stream: nothing when it
is empty, otherwise one warning diagnostic per well-formed line. -/
def parsePyflakesOutput (warnings : String) : List Diagnostic :=
  if warnings = "" then []
  else (warnings.trim.splitOn "\n").filterMap parseFlakeLine

/-- The diagnostics list (`errors`) computed by `check_syntax`:
a parse failure yields exactly the one syntax diagnostic and skips
pyflakes; otherwise pyflakes is consulted when importable
(`Option.none` models `ImportError`), with any exception it raises
swallowed. -/
def checkSyntaxDiagnostics (parse : String → Option SynErr)
    (pyflakes : Option (String → Except PyErr String)) (code : String) : List Diagnostic :=
  match parse code with
  | some e => [syntaxErrorDiag e]
  | Option.none =>
    match pyflakes with
    | Option.none => []
    | some check =>
      match check code with
      | .error _ => []
      | .ok warnings => parsePyflakesOutput warnings

/-- One reported diagnostic as a response value. -/
def diagValue (d : Diagnostic) : Value :=
  Value.dict [("line", Value.int d.line), ("column", Value.int d.column),
              ("message", Value.str d.message), ("severity", Value.str d.severity)]

/-- The operation `check_syntax(code)`: always a success response whose result wraps
the diagnostics list. -/
def checkSyntax (parse : String → Option SynErr)
    (pyflakes : Option (String → Except PyErr String)) (code : String) : Response :=
  { success := true,
    result := some (Value.dict
      [("errors", Value.list ((checkSyntaxDiagnostics parse pyflakes code).map diagValue))]) }

/-- A decoded request dict: `request.get(field)` returns
`Option.none` for an absent field. -/
structure Request where
  command : Option String := Option.none
  code : Option String := Option.none
  expression : Option String := Option.none
  vars : Option AList := Option.none
  module : Option String := Option.none
  function : Option String := Option.none
  args : Option (List Value) := Option.none
  kwargs : Option AList := Option.none
  line : Option Int := Option.none
  column : Option Int := Option.none
  command_str : Option String := Option.none
  timeout : Option Int := Option.none
  security_mode : Option String := Option.none

/-- The error response written when `json.loads` fails on an input
line. -/
def decodeErrorResponse (e : String) : Response :=
  { success := false, error := some ("JSON decode error: " ++ e) }

/-- The final acknowledgement written for a `shutdown` request. -/
def shutdownResponse : Response :=
  { success := true, result := some (Value.str "shutting down") }

/-- The `while True` body of `run`, iterated over the list of input
lines remaining before end-of-stream: each line is decoded (`decode`
models `json.loads`), a decode failure emits an error response and
continues, a decoded `shutdown` emits the final acknowledgement and
stops, and any other request is handed to the dispatcher `step`
(modelling `process_request`), emitting exactly one response and
threading the updated globals. -/
def sessionLoop (decode : String → Except String Request)
    (step : AList → Request → Response × AList) :
    AList → List String → List Response
  | _, [] => []
  | st, line :: rest =>
    match decode line with
    | .error e => decodeErrorResponse e :: sessionLoop decode step st rest
    | .ok req =>
      if req.command = some "shutdown" then [shutdownResponse]
      else
        let pr := step st req
        pr.1 :: sessionLoop decode step pr.2 rest

/-- Whether an input line decodes to a shutdown request. -/
def decodesShutdown (decode : String → Except String Request) (line : String) : Prop :=
  ∃ req, decode line = .ok req ∧ req.command = some "shutdown"

/-! Helper lemmas about the policy engine. -/

theorem checkAlwaysBlocked_isErr {code m : String}
    (hm : m ∈ always_blocked_modules)
    (hhit : (importHit code m || fromImportHit code m) = true) :
    isErr (checkAlwaysBlocked code) = true := by
  have h : (always_blocked_modules.find? (fun m => importHit code m || fromImportHit code m)).isSome :=
    List.find?_isSome.mpr ⟨m, hm, hhit⟩
  unfold checkAlwaysBlocked
  cases hf : always_blocked_modules.find? (fun m => importHit code m || fromImportHit code m) with
  | none => rw [hf] at h; simp at h
  | some x => simp [isErr]

theorem validate_isErr_of_alwaysBlocked {code mode : String}
    (h : isErr (checkAlwaysBlocked code) = true) :
    isErr (validateCodeSecurity code mode) = true := by
  unfold validateCodeSecurity
  cases hc : checkAlwaysBlocked code with
  | error e => simp [isErr]
  | ok u => rw [hc] at h; simp [isErr] at h

theorem checkBlockedFunctions_isErr {code f : String}
    (hm : f ∈ blocked_functions)
    (hhit : (strContains code f || strContains (pyUpper code) (pyUpper f)) = true) :
    isErr (checkBlockedFunctions code) = true := by
  have h : (blocked_functions.find? (fun f => strContains code f || strContains (pyUpper code) (pyUpper f))).isSome :=
    List.find?_isSome.mpr ⟨f, hm, hhit⟩
  unfold checkBlockedFunctions
  cases hf : blocked_functions.find? (fun f => strContains code f || strContains (pyUpper code) (pyUpper f)) with
  | none => rw [hf] at h; simp at h
  | some x => simp [isErr]

theorem checkDangerousPatterns_isErr {code : String} {pd : String × String}
    (hm : pd ∈ dangerous_patterns)
    (hhit : strContains (pyUpper code) pd.1 = true) :
    isErr (checkDangerousPatterns code) = true := by
  have h : (dangerous_patterns.find? (fun pd => strContains (pyUpper code) pd.1)).isSome :=
    List.find?_isSome.mpr ⟨pd, hm, hhit⟩
  unfold checkDangerousPatterns
  cases hf : dangerous_patterns.find? (fun pd => strContains (pyUpper code) pd.1) with
  | none => rw [hf] at h; simp at h
  | some x => simp [isErr]

theorem validate_restricted_isErr_of_blockedFunction {code : String}
    (h : isErr (checkBlockedFunctions code) = true) :
    isErr (validateCodeSecurity code "RESTRICTED") = true := by
  unfold validateCodeSecurity
  cases hc : checkAlwaysBlocked code with
  | error e => simp [isErr]
  | ok u =>
    simp only [if_pos rfl]
    cases ha : checkAdminImports code with
    | error e => simp [isErr]
    | ok u2 =>
      cases hb : checkBlockedFunctions code with
      | error e => simp [isErr]
      | ok u3 => rw [hb] at h; simp [isErr] at h

theorem validate_restricted_isErr_of_dangerousPattern {code : String}
    (h : isErr (checkDangerousPatterns code) = true) :
    isErr (validateCodeSecurity code "RESTRICTED") = true := by
  unfold validateCodeSecurity
  cases hc : checkAlwaysBlocked code with
  | error e => simp [isErr]
  | ok u =>
    simp only [if_pos rfl]
    cases ha : checkAdminImports code with
    | error e => simp [isErr]
    | ok u2 =>
      cases hb : checkBlockedFunctions code with
      | error e => simp [isErr]
      | ok u3 => exact h

theorem validate_admin_ok_of_noAlwaysBlocked {code : String}
    (h : checkAlwaysBlocked code = .ok ()) :
    validateCodeSecurity code "ADMIN" = .ok () := by
  unfold validateCodeSecurity
  rw [h]
  simp

theorem safeImport_isErr_of_alwaysBlocked {name mode : String}
    (h : (name ∈ always_blocked_modules || firstComponent name ∈ always_blocked_modules) = true) :
    isErr (safeImport name mode) = true := by
  unfold safeImport
  rw [if_pos h]
  simp [isErr]

/-! The claim theorems. -/

/-- Claim C1: for every security mode in {RESTRICTED, ADMIN} and
every always-blocked module M, validation of any code text containing
either canonical import shape for M (the case-insensitive matches
realised by `importHit` / `fromImportHit`) is denied, and
`_safe_import` of M or of any dotted name whose first component is M
fails, at both tiers. -/
theorem claim_C1_forbidden_denied :
    ∀ m ∈ always_blocked_modules, ∀ mode : String,
      mode = "RESTRICTED" ∨ mode = "ADMIN" →
      (∀ code : String,
        (importHit code m || fromImportHit code m) = true →
        isErr (validateCodeSecurity code mode) = true) ∧
      (∀ name : String,
        name = m ∨ firstComponent name = m →
        isErr (safeImport name mode) = true) := by
  intro m hm mode _hmode
  refine ⟨fun code hhit => ?_, fun name hname => ?_⟩
  · exact validate_isErr_of_alwaysBlocked (checkAlwaysBlocked_isErr hm hhit)
  · apply safeImport_isErr_of_alwaysBlocked
    rcases hname with h | h
    · subst h; simp [hm]
    · rw [Bool.or_eq_true]
      right
      rw [h]
      simp [hm]

/-- Witness for C1 at M = ctypes: a RESTRICTED validation of
`import ctypes` is denied and an ADMIN-tier import of `ctypes.util`
fails. -/
theorem claim_C1_witness :
    isErr (validateCodeSecurity "import ctypes" "RESTRICTED") = true ∧
    isErr (safeImport "ctypes.util" "ADMIN") = true :=
  ⟨(claim_C1_forbidden_denied "ctypes" (by decide) "RESTRICTED" (Or.inl rfl)).1
      "import ctypes" (by decide),
   (claim_C1_forbidden_denied "ctypes" (by decide) "ADMIN" (Or.inr rfl)).2
      "ctypes.util" (Or.inr (by decide))⟩

/-- Claim C2: code denied at RESTRICTED solely because of a privileged
(admin-tier) import — with no always-blocked match, no blocked-function
match and no dangerous call-site pattern — validates cleanly at ADMIN
(the ADMIN branch only logs). -/
theorem claim_C2_admin_admits_privileged_only_denials :
    ∀ code : String,
      isErr (validateCodeSecurity code "RESTRICTED") = true →
      checkAlwaysBlocked code = .ok () →
      checkBlockedFunctions code = .ok () →
      checkDangerousPatterns code = .ok () →
      validateCodeSecurity code "ADMIN" = .ok () := by
  intro code _hden hab _hbf _hdp
  exact validate_admin_ok_of_noAlwaysBlocked hab

/-- Witness for C2 at `import os`: denied at RESTRICTED (os is
admin-tier) yet accepted at ADMIN. -/
theorem claim_C2_witness :
    isErr (validateCodeSecurity "import os" "RESTRICTED") = true ∧
    validateCodeSecurity "import os" "ADMIN" = .ok () :=
  ⟨by decide,
   claim_C2_admin_admits_privileged_only_denials "import os" (by decide) rfl rfl rfl⟩

/-- Claim C10: at RESTRICTED, any code text containing a blocked
primitive name or a dangerous pattern as a (case-insensitive)
substring anywhere — identifiers, string literals, comments — is
denied; in particular any text containing the three letters `dir`. -/
theorem claim_C10_substring_overblocking :
    (∀ f ∈ blocked_functions, ∀ code : String,
        strContains (pyUpper code) (pyUpper f) = true →
        isErr (validateCodeSecurity code "RESTRICTED") = true) ∧
    (∀ pd ∈ dangerous_patterns, ∀ code : String,
        strContains (pyUpper code) pd.1 = true →
        isErr (validateCodeSecurity code "RESTRICTED") = true) ∧
    (∀ code : String, upperContains code "dir" = true →
        isErr (validateCodeSecurity code "RESTRICTED") = true) := by
  refine ⟨fun f hf code hhit => ?_, fun pd hpd code hhit => ?_, fun code hhit => ?_⟩
  · refine validate_restricted_isErr_of_blockedFunction
      (checkBlockedFunctions_isErr hf ?_)
    rw [Bool.or_eq_true]
    exact Or.inr hhit
  · exact validate_restricted_isErr_of_dangerousPattern
      (checkDangerousPatterns_isErr hpd hhit)
  · refine validate_restricted_isErr_of_blockedFunction
      (@checkBlockedFunctions_isErr code "dir" (by decide) ?_)
    rw [Bool.or_eq_true]
    exact Or.inr hhit

/-- Witness for C10: `directory = 1` (which references no blocked
primitive) is denied at RESTRICTED because it contains `dir`, and
`os.getcwd()` is denied through the `OS.` call-site pattern. -/
theorem claim_C10_witness :
    isErr (validateCodeSecurity "directory = 1" "RESTRICTED") = true ∧
    isErr (validateCodeSecurity "os.getcwd()" "RESTRICTED") = true :=
  ⟨claim_C10_substring_overblocking.2.2 "directory = 1" (by decide),
   claim_C10_substring_overblocking.2.1 ("OS.", "os module") (by decide)
     "os.getcwd()" (by decide)⟩

/-! Dict-operation lemmas. -/

theorem alookup_cons (a : String) (b : Value) (tl : AList) (k : String) :
    alookup ((a, b) :: tl) k = if a = k then some b else alookup tl k := by
  by_cases h : a = k <;> simp [alookup, List.find?_cons, h]

theorem alookup_aset (d : AList) (k k1 : String) (v : Value) :
    alookup (aset d k v) k1 = if k1 = k then some v else alookup d k1 := by
  induction d with
  | nil =>
    rw [show aset [] k v = [(k, v)] from rfl, alookup_cons]
    by_cases h : k1 = k
    · simp [h]
    · have hne : ¬ k = k1 := fun hh => h hh.symm
      simp [h, hne, alookup, List.find?]
  | cons hd tl ih =>
    obtain ⟨k0, v0⟩ := hd
    by_cases h0 : k0 = k
    · subst h0
      simp only [aset, beq_self_eq_true, if_pos]
      rw [alookup_cons, alookup_cons]
      by_cases h1 : k1 = k0
      · subst h1; simp
      · have hne : ¬ k0 = k1 := fun hh => h1 hh.symm
        simp [h1, hne]
    · have h0b : (k0 == k) = false := by simp [h0]
      simp only [aset, h0b, Bool.false_eq_true, if_neg, ite_false]
      rw [alookup_cons, alookup_cons, ih]
      by_cases h1 : k1 = k
      · subst h1
        have hne : ¬ k0 = k1 := h0
        simp [hne]
      · simp [h1]

theorem alookup_eq_none (u : AList) (k : String) (h : k ∉ u.map Prod.fst) :
    alookup u k = Option.none := by
  unfold alookup
  have hf : u.find? (fun p => p.1 == k) = Option.none := by
    rw [List.find?_eq_none]
    intro x hx
    simp only [beq_iff_eq]
    intro hk
    exact h (List.mem_map.mpr ⟨x, hx, hk⟩)
  rw [hf]
  rfl

theorem alookup_aupdate (u : AList) :
    ∀ (d : AList) (k : String), (u.map Prod.fst).Nodup →
      alookup (aupdate d u) k = (alookup u k).orElse (fun _ => alookup d k) := by
  induction u with
  | nil =>
    intro d k _
    simp [aupdate, alookup, List.find?, Option.orElse]
  | cons hd tl ih =>
    intro d k hnd
    obtain ⟨a, b⟩ := hd
    rw [List.map_cons, List.nodup_cons] at hnd
    obtain ⟨ha, htl⟩ := hnd
    show alookup (aupdate (aset d a b) tl) k = _
    rw [ih (aset d a b) k htl, alookup_cons]
    by_cases hk : k = a
    · subst hk
      rw [alookup_eq_none tl k ha, alookup_aset, if_pos rfl]
      simp [Option.orElse]
    · rw [alookup_aset, if_neg hk]
      have : ¬ a = k := fun h => hk h.symm
      simp [this]

theorem alookup_buildScope (globals vs : AList) (mode : String) (bv : Value) (k : String)
    (hnd : (vs.map Prod.fst).Nodup)
    (h1 : ¬ k = "__import__") (h2 : ¬ k = "__builtins__") :
    alookup (buildScope globals (some vs) mode bv) k =
      (alookup vs k).orElse (fun _ => alookup globals k) := by
  unfold buildScope
  rw [alookup_aset, if_neg h2, alookup_aset, if_neg h1]
  exact alookup_aupdate vs globals k hnd

/-- A trivially benign instantiation of the interpreter oracles, used
to witness theorems at concrete inputs. -/
def ambOk : Ambient :=
  { builtinsItems := .ok [],
    fullBuiltins := Value.builtinsObj false,
    pyExec := fun _ _ => .ok { locals := [], captured := "" },
    pyEval := fun _ _ => .ok Value.none }

/-- The interpreter oracles as they actually are when the bridge script
runs as `__main__`: `__builtins__` is the builtins module, so
`__builtins__.items()` raises `AttributeError`. -/
def ambMain : Ambient :=
  { builtinsItems := .error
      { msg := "\x27module\x27 object has no attribute \x27items\x27",
        tb := "Traceback (most recent call last):\n  AttributeError: \x27module\x27 object has no attribute \x27items\x27\n" },
    fullBuiltins := Value.builtinsObj false,
    pyExec := fun _ _ => .ok { locals := [], captured := "" },
    pyEval := fun _ _ => .ok Value.none }

/-- Claim C3: whenever validation raises a security violation, execute
returns the security-error response — message prefixed SECURITY ERROR,
empty traceback, no result, no captured output — and the persistent
globals mapping is returned exactly unchanged, for every interpreter
oracle (so the code is never executed). -/
theorem claim_C3_security_violation_shortcircuits :
    ∀ (amb : Ambient) (globals : AList) (code : String) (vars : Option AList)
      (mode m : String),
      validateCodeSecurity code mode = .error m →
      execute_code amb globals code vars mode =
        ({ success := false, error := some ("SECURITY ERROR: " ++ m),
           traceback := some "" }, globals) := by
  intro amb globals code vars mode m h
  unfold execute_code
  rw [h]
  rfl

/-- Witness for C3: executing `import os` at RESTRICTED returns the
security-error response with empty traceback and leaves the (empty)
globals untouched. -/
theorem claim_C3_witness :
    execute_code ambOk [] "import os" Option.none "RESTRICTED" =
      ({ success := false,
         error := some ("SECURITY ERROR: " ++
           ("Security violation: Import of \x27os\x27 requires Administrator role. Allowed modules: " ++ allowedModulesStr)),
         traceback := some "" }, []) :=
  claim_C3_security_violation_shortcircuits ambOk [] "import os" Option.none "RESTRICTED"
    ("Security violation: Import of \x27os\x27 requires Administrator role. Allowed modules: " ++ allowedModulesStr) rfl

/-- Claim C4 (code bug): the specified behaviour
execute("result = 2 + 2", RESTRICTED) = 4 is unreachable.  In
RESTRICTED mode `execute_code` evaluates `__builtins__.items()`, and
when the bridge script runs as `__main__` (its designed entry point)
`__builtins__` is the builtins module, so the call raises
AttributeError before the user code ever runs: the result is an error
response and the globals are left unchanged, for every snippet that
passes validation, in particular the spec example. -/
theorem claim_C4_restricted_execute_fails :
    ∀ (amb : Ambient) (globals : AList) (e : PyErr),
      amb.builtinsItems = .error e →
      execute_code amb globals "result = 2 + 2" Option.none "RESTRICTED" =
        ({ success := false, error := some e.msg, traceback := some e.tb }, globals) := by
  intro amb globals e h
  unfold execute_code
  rw [show validateCodeSecurity "result = 2 + 2" "RESTRICTED" = .ok () from rfl]
  unfold builtinsFor
  rw [if_pos rfl, h]
  rfl

/-- Witness for C4: under the actual `__main__` oracles, the spec
example returns a failure response carrying the AttributeError. -/
theorem claim_C4_witness :
    execute_code ambMain [] "result = 2 + 2" Option.none "RESTRICTED" =
      ({ success := false,
         error := some "\x27module\x27 object has no attribute \x27items\x27",
         traceback := some "Traceback (most recent call last):\n  AttributeError: \x27module\x27 object has no attribute \x27items\x27\n" }, []) :=
  claim_C4_restricted_execute_fails ambMain []
    { msg := "\x27module\x27 object has no attribute \x27items\x27",
      tb := "Traceback (most recent call last):\n  AttributeError: \x27module\x27 object has no attribute \x27items\x27\n" } rfl

/-! Session-loop helper lemmas. -/

theorem sessionLoop_nil (decode : String → Except String Request)
    (step : AList → Request → Response × AList) (st : AList) :
    sessionLoop decode step st [] = [] := rfl

theorem sessionLoop_cons_err {decode : String → Except String Request}
    {step : AList → Request → Response × AList} {st : AList}
    {line e : String} (rest : List String)
    (h : decode line = .error e) :
    sessionLoop decode step st (line :: rest) =
      decodeErrorResponse e :: sessionLoop decode step st rest := by
  simp only [sessionLoop]
  rw [h]

theorem sessionLoop_cons_ok {decode : String → Except String Request}
    {step : AList → Request → Response × AList} {st : AList}
    {line : String} {req : Request} (rest : List String)
    (h : decode line = .ok req) (hcmd : ¬ req.command = some "shutdown") :
    sessionLoop decode step st (line :: rest) =
      (step st req).1 :: sessionLoop decode step (step st req).2 rest := by
  simp only [sessionLoop]
  rw [h]
  simp [hcmd]

theorem sessionLoop_cons_shutdown {decode : String → Except String Request}
    {step : AList → Request → Response × AList} {st : AList}
    {line : String} {req : Request} (rest : List String)
    (h : decode line = .ok req) (hcmd : req.command = some "shutdown") :
    sessionLoop decode step st (line :: rest) = [shutdownResponse] := by
  simp only [sessionLoop]
  rw [h]
  simp [hcmd]

theorem sessionLoop_length {decode : String → Except String Request}
    {step : AList → Request → Response × AList} :
    ∀ (inputs : List String) (st : AList),
      (∀ line ∈ inputs, ¬ decodesShutdown decode line) →
      (sessionLoop decode step st inputs).length = inputs.length := by
  intro inputs
  induction inputs with
  | nil => intro st _; rfl
  | cons line rest ih =>
    intro st h
    have hline := h line (List.mem_cons_self line rest)
    have hrest : ∀ l ∈ rest, ¬ decodesShutdown decode l :=
      fun l hl => h l (List.mem_cons_of_mem line hl)
    cases hd : decode line with
    | error e =>
      rw [sessionLoop_cons_err rest hd, List.length_cons, List.length_cons, ih st hrest]
    | ok req =>
      have hcmd : ¬ req.command = some "shutdown" :=
        fun hc => hline ⟨req, hd, hc⟩
      rw [sessionLoop_cons_ok rest hd hcmd, List.length_cons, List.length_cons,
        ih (step st req).2 hrest]

/-- Claim C5: in the session loop every input line produces exactly one
response, in request order: end-of-stream yields no further output and
terminates; a line that fails to decode yields the decode-error
response and the loop continues; a decoded non-shutdown request yields
exactly the dispatcher response and the loop continues on the updated
state; a shutdown request yields the single final acknowledgement and
terminates; and N back-to-back non-shutdown requests yield exactly N
responses regardless of individual failures. -/
theorem claim_C5_session_loop :
    ∀ (decode : String → Except String Request) (step : AList → Request → Response × AList),
      (∀ st : AList, sessionLoop decode step st [] = []) ∧
      (∀ (st : AList) (line e : String) (rest : List String),
        decode line = .error e →
        sessionLoop decode step st (line :: rest) =
          decodeErrorResponse e :: sessionLoop decode step st rest) ∧
      (∀ (st : AList) (line : String) (req : Request) (rest : List String),
        decode line = .ok req → ¬ req.command = some "shutdown" →
        sessionLoop decode step st (line :: rest) =
          (step st req).1 :: sessionLoop decode step (step st req).2 rest) ∧
      (∀ (st : AList) (line : String) (req : Request) (rest : List String),
        decode line = .ok req → req.command = some "shutdown" →
        sessionLoop decode step st (line :: rest) = [shutdownResponse]) ∧
      (∀ (inputs : List String) (st : AList),
        (∀ line ∈ inputs, ¬ decodesShutdown decode line) →
        (sessionLoop decode step st inputs).length = inputs.length) := by
  intro decode step
  exact ⟨sessionLoop_nil decode step,
         fun st line e rest h => sessionLoop_cons_err rest h,
         fun st line req rest h hc => sessionLoop_cons_ok rest h hc,
         fun st line req rest h hc => sessionLoop_cons_shutdown rest h hc,
         sessionLoop_length⟩

/-- A concrete decoder for witnessing loop behaviour: the line `bad`
fails to decode, anything else is a ping request. -/
def decode0 : String → Except String Request :=
  fun line => if line = "bad" then .error "Expecting value" else .ok { command := some "ping" }

/-- A concrete dispatcher for witnessing loop behaviour: always the
ping response, state unchanged. -/
def step0 : AList → Request → Response × AList :=
  fun st _ => ({ success := true, result := some (Value.str "pong") }, st)

/-- Witness for C5: an empty input stream produces no responses, and
three back-to-back lines (one of which fails to decode) produce
exactly three responses. -/
theorem claim_C5_witness :
    sessionLoop decode0 step0 [] [] = [] ∧
    (sessionLoop decode0 step0 [] ["ping1", "bad", "ping2"]).length = 3 := by
  have h := claim_C5_session_loop decode0 step0
  refine ⟨h.1 [], h.2.2.2.2 ["ping1", "bad", "ping2"] [] ?_⟩
  intro line hl hSd
  obtain ⟨req, hdec, hcmd⟩ := hSd
  fin_cases hl <;> simp [decode0] at hdec <;>
    first
      | exact hdec
      | (rw [← hdec] at hcmd; simp at hcmd)

/-- Claim C6: evaluate never mutates the persistent globals (on any
path, success or failure) and captures no output; the execution scope
merges the globals with the extra bindings with the extras winning on
every ordinary key collision (only the two rebinder keys `__import__`
and `__builtins__` are further overridden, as step 3 of the spec
prescribes); and execute persists exactly the bindings produced by the
run — the extra bindings are never persisted by themselves. -/
theorem claim_C6_evaluate_frame :
    ∀ (amb : Ambient) (globals : AList) (expr : String) (vars : Option AList) (mode : String),
      (evaluate_expression amb globals expr vars mode).2 = globals ∧
      (evaluate_expression amb globals expr vars mode).1.output = Option.none ∧
      (∀ (vs : AList) (bv : Value) (k : String),
        (vs.map Prod.fst).Nodup → ¬ k = "__import__" → ¬ k = "__builtins__" →
        alookup (buildScope globals (some vs) mode bv) k =
          (alookup vs k).orElse (fun _ => alookup globals k)) ∧
      (∀ code : String,
        (execute_code amb globals code vars mode).2 = globals ∨
        ∃ bv out, amb.pyExec code (buildScope globals vars mode bv) = .ok out ∧
          (execute_code amb globals code vars mode).2 = aupdate globals out.locals) := by
  intro amb globals expr vars mode
  refine ⟨?_, ?_, ?_, ?_⟩
  · unfold evaluate_expression
    split
    · rfl
    · split
      · rfl
      · split
        · rfl
        · rfl
  · unfold evaluate_expression
    split
    · rfl
    · split
      · rfl
      · split
        · rfl
        · rfl
  · exact fun vs bv k hnd h1 h2 => alookup_buildScope globals vs mode bv k hnd h1 h2
  · intro code
    unfold execute_code
    split
    · exact Or.inl rfl
    · split
      · exact Or.inl rfl
      · rename_i bv _hbv
        split
        · exact Or.inl rfl
        · rename_i out hx
          exact Or.inr ⟨bv, out, hx, rfl⟩

/-- Witness for C6: evaluating over a one-binding context leaves it
unchanged, and in the merged scope an extra binding shadows the
context binding on collision. -/
theorem claim_C6_witness :
    (evaluate_expression ambOk [("x", Value.int 1)] "x" Option.none "ADMIN").2 =
      [("x", Value.int 1)] ∧
    alookup (buildScope [("x", Value.int 1)] (some [("x", Value.int 2)]) "ADMIN"
        (Value.builtinsObj false)) "x" =
      (alookup [("x", Value.int 2)] "x").orElse (fun _ => alookup [("x", Value.int 1)] "x") := by
  have h := claim_C6_evaluate_frame ambOk [("x", Value.int 1)] "x" Option.none "ADMIN"
  exact ⟨h.1, h.2.2.1 [("x", Value.int 2)] (Value.builtinsObj false) "x"
    (by decide) (by decide) (by decide)⟩

/-- Claim C7: when the shell oracle reports a wall-clock timeout,
executeShell returns the failure response with exit code -1 and empty
stdout/stderr streams, and the timeout is recovered locally — a
session-loop line whose dispatch produces this response still emits
exactly one response and the loop continues with the remaining
requests. -/
theorem claim_C7_shell_timeout :
    ∀ (runShell : String → Int → ShellRes) (cmd : String) (t : Int),
      runShell cmd t = .timedOut →
      execute_shell runShell cmd t =
        { success := false,
          error := some ("Command timed out after " ++ toString t ++ " seconds"),
          stdout := some "", stderr := some "", exitCode := some (-1) } ∧
      (∀ (decode : String → Except String Request) (step : AList → Request → Response × AList)
         (st : AList) (line : String) (req : Request) (rest : List String),
        decode line = .ok req → ¬ req.command = some "shutdown" →
        step st req = (execute_shell runShell cmd t, st) →
        sessionLoop decode step st (line :: rest) =
          execute_shell runShell cmd t :: sessionLoop decode step st rest) := by
  intro runShell cmd t h
  constructor
  · unfold execute_shell
    rw [h]
  · intro decode step st line req rest hdec hcmd hstep
    rw [sessionLoop_cons_ok rest hdec hcmd, hstep]

/-- A concrete shell oracle on which `sleep 5` under a 1-second budget
times out. -/
def shell0 : String → Int → ShellRes :=
  fun cmd t => if cmd = "sleep 5" && t == 1 then .timedOut else .done "" "" 0

/-- Witness for C7: executeShell("sleep 5", timeout=1) is the timeout
failure with exit code -1 and empty streams. -/
theorem claim_C7_witness :
    execute_shell shell0 "sleep 5" 1 =
      { success := false,
        error := some ("Command timed out after " ++ toString (1 : Int) ++ " seconds"),
        stdout := some "", stderr := some "", exitCode := some (-1) } :=
  (claim_C7_shell_timeout shell0 "sleep 5" 1 rfl).1

/-- Claim C8: checkSyntax parses first — a parse failure yields a
successful response containing exactly one diagnostic, of error
severity, positioned at the offending line (with the truthiness
defaults of the source), and the result is independent of the
static-analysis capability (pyflakes is skipped); on parse success the
absence of pyflakes yields an empty diagnostics list inside a
successful response, not an error. -/
theorem claim_C8_checkSyntax :
    ∀ (parse : String → Option SynErr)
      (pf pf2 : Option (String → Except PyErr String)) (code : String),
      (∀ e : SynErr, parse code = some e →
        checkSyntaxDiagnostics parse pf code = [syntaxErrorDiag e] ∧
        (syntaxErrorDiag e).severity = "error" ∧
        (syntaxErrorDiag e).line = pyTruthyInt e.lineno 1 ∧
        (checkSyntax parse pf code).success = true ∧
        checkSyntax parse pf code = checkSyntax parse pf2 code) ∧
      (parse code = Option.none → pf = Option.none →
        checkSyntaxDiagnostics parse pf code = [] ∧
        (checkSyntax parse pf code).success = true) := by
  intro parse pf pf2 code
  constructor
  · intro e he
    have hd : checkSyntaxDiagnostics parse pf code = [syntaxErrorDiag e] := by
      unfold checkSyntaxDiagnostics
      rw [he]
    have hd2 : checkSyntaxDiagnostics parse pf2 code = [syntaxErrorDiag e] := by
      unfold checkSyntaxDiagnostics
      rw [he]
    refine ⟨hd, rfl, rfl, rfl, ?_⟩
    unfold checkSyntax
    rw [hd, hd2]
  · intro he hpf
    have hd : checkSyntaxDiagnostics parse pf code = [] := by
      unfold checkSyntaxDiagnostics
      rw [he, hpf]
    exact ⟨hd, rfl⟩

/-- A concrete parse oracle failing exactly on the spec example
`def f(:` the way CPython reports it. -/
def parse0 : String → Option SynErr :=
  fun code =>
    if code = "def f(:" then
      some { lineno := some 1, offset := some 7, msg := some "invalid syntax",
             excStr := "invalid syntax (<string>, line 1)" }
    else Option.none

/-- Witness for C8: `def f(:` yields exactly one error diagnostic at
line 1, and a well-formed snippet with no pyflakes yields no
diagnostics inside a success response. -/
theorem claim_C8_witness :
    checkSyntaxDiagnostics parse0 Option.none "def f(:" =
      [{ line := 1, column := 7, message := "invalid syntax", severity := "error" }] ∧
    checkSyntaxDiagnostics parse0 Option.none "x = 1" = [] ∧
    (checkSyntax parse0 Option.none "x = 1").success = true := by
  have h1 := (claim_C8_checkSyntax parse0 Option.none Option.none "def f(:").1
    { lineno := some 1, offset := some 7, msg := some "invalid syntax",
      excStr := "invalid syntax (<string>, line 1)" } rfl
  have h2 := (claim_C8_checkSyntax parse0 Option.none Option.none "x = 1").2 rfl rfl
  exact ⟨h1.1.trans (by rfl), h2.1, h2.2⟩

/-- Counterexample to C9 as stated: the violation for the
always-blocked module ctypes (here at the ADMIN tier, identically at
RESTRICTED) carries a reason but no allowed-capability list — its
message contains neither the literal Allowed-modules text used by the
privileged-import denials nor the leading entries of the sorted
allowed-module enumeration of either tier. -/
theorem claim_C9_counterexample :
    validateCodeSecurity "import ctypes" "ADMIN" =
      .error "Security violation: Module \x27ctypes\x27 is always blocked for security reasons" ∧
    strContains "Security violation: Module \x27ctypes\x27 is always blocked for security reasons"
      "Allowed modules" = false ∧
    strContains "Security violation: Module \x27ctypes\x27 is always blocked for security reasons"
      "ast, base64" = false :=
  ⟨rfl, by decide, by decide⟩

theorem checkAlwaysBlocked_msg {code m : String}
    (h : checkAlwaysBlocked code = .error m) :
    ∃ rest : String, m = "Security violation: " ++ rest := by
  unfold checkAlwaysBlocked at h
  cases hf : always_blocked_modules.find? (fun m => importHit code m || fromImportHit code m) with
  | none => rw [hf] at h; cases h
  | some x =>
    rw [hf] at h
    injection h with h1
    refine ⟨"Module \x27" ++ x ++ "\x27 is always blocked for security reasons", ?_⟩
    rw [← h1]
    rw [show ("Security violation: Module \x27" : String) =
      "Security violation: " ++ "Module \x27" from rfl]
    simp only [String.append_assoc]

theorem checkAdminImports_msg {code m : String}
    (h : checkAdminImports code = .error m) :
    (∃ rest : String, m = "Security violation: " ++ rest) ∧
    (∃ pre : String,
      m = pre ++ ("requires Administrator role. Allowed modules: " ++ allowedModulesStr)) := by
  unfold checkAdminImports at h
  cases hf : admin_modules.find? (fun m => importHit code m || fromImportHit code m) with
  | none => rw [hf] at h; cases h
  | some x =>
    rw [hf] at h
    injection h with h1
    rw [← h1]
    unfold adminImportMsg
    by_cases hi : importHit code x = true
    · rw [if_pos hi]
      constructor
      · refine ⟨"Import of \x27" ++ x ++ "\x27 requires Administrator role. Allowed modules: " ++ allowedModulesStr, ?_⟩
        rw [show ("Security violation: Import of \x27" : String) =
          "Security violation: " ++ "Import of \x27" from rfl]
        simp only [String.append_assoc]
      · refine ⟨"Security violation: Import of \x27" ++ x ++ "\x27 ", ?_⟩
        rw [show ("\x27 requires Administrator role. Allowed modules: " : String) =
          "\x27 " ++ "requires Administrator role. Allowed modules: " from rfl]
        simp only [String.append_assoc]
    · rw [if_neg hi]
      constructor
      · refine ⟨"Import from \x27" ++ x ++ "\x27 requires Administrator role. Allowed modules: " ++ allowedModulesStr, ?_⟩
        rw [show ("Security violation: Import from \x27" : String) =
          "Security violation: " ++ "Import from \x27" from rfl]
        simp only [String.append_assoc]
      · refine ⟨"Security violation: Import from \x27" ++ x ++ "\x27 ", ?_⟩
        rw [show ("\x27 requires Administrator role. Allowed modules: " : String) =
          "\x27 " ++ "requires Administrator role. Allowed modules: " from rfl]
        simp only [String.append_assoc]

theorem checkBlockedFunctions_msg {code m : String}
    (h : checkBlockedFunctions code = .error m) :
    ∃ rest : String, m = "Security violation: " ++ rest := by
  unfold checkBlockedFunctions at h
  cases hf : blocked_functions.find? (fun f => strContains code f || strContains (pyUpper code) (pyUpper f)) with
  | none => rw [hf] at h; cases h
  | some x =>
    rw [hf] at h
    injection h with h1
    refine ⟨"Function \x27" ++ x ++ "\x27 requires Administrator role", ?_⟩
    rw [← h1]
    rw [show ("Security violation: Function \x27" : String) =
      "Security violation: " ++ "Function \x27" from rfl]
    simp only [String.append_assoc]

theorem checkDangerousPatterns_msg {code m : String}
    (h : checkDangerousPatterns code = .error m) :
    ∃ rest : String, m = "Security violation: " ++ rest := by
  unfold checkDangerousPatterns at h
  cases hf : dangerous_patterns.find? (fun pd => strContains (pyUpper code) pd.1) with
  | none => rw [hf] at h; cases h
  | some x =>
    rw [hf] at h
    injection h with h1
    refine ⟨"Use of " ++ x.2 ++ " requires Administrator role", ?_⟩
    rw [← h1]
    rw [show ("Security violation: Use of " : String) =
      "Security violation: " ++ "Use of " from rfl]
    simp only [String.append_assoc]

theorem validate_error_cases {code mode m : String}
    (h : validateCodeSecurity code mode = .error m) :
    checkAlwaysBlocked code = .error m ∨ checkAdminImports code = .error m ∨
    checkBlockedFunctions code = .error m ∨ checkDangerousPatterns code = .error m := by
  unfold validateCodeSecurity at h
  split at h
  · rename_i e heq
    injection h with h2
    rw [h2] at heq
    exact Or.inl heq
  · rename_i u heq
    split at h
    · split at h
      · rename_i e2 heq2
        injection h with h3
        rw [h3] at heq2
        exact Or.inr (Or.inl heq2)
      · rename_i u2 heq2
        split at h
        · rename_i e3 heq3
          injection h with h4
          rw [h4] at heq3
          exact Or.inr (Or.inr (Or.inl heq3))
        · rename_i u3 heq3
          exact Or.inr (Or.inr (Or.inr h))
    · exact Except.noConfusion h

/-- Claim C9 amended: every violation raised by the policy engine
carries a reason (a message beginning with the fixed security-violation
prefix); the privileged-import denials at RESTRICTED additionally
carry the currently-allowed capability list; the always-blocked,
blocked-function and dangerous-pattern denials carry the reason alone
(the counterexample shows the allowed list genuinely absent there);
and a security violation surfaced through execute never carries trace
text — its traceback field is the empty string. -/
theorem claim_C9_amended :
    (∀ code mode m : String, validateCodeSecurity code mode = .error m →
      ∃ rest : String, m = "Security violation: " ++ rest) ∧
    (∀ code m : String, checkAdminImports code = .error m →
      ∃ pre : String,
        m = pre ++ ("requires Administrator role. Allowed modules: " ++ allowedModulesStr)) ∧
    (∀ (amb : Ambient) (globals : AList) (code : String) (vars : Option AList) (mode m : String),
      validateCodeSecurity code mode = .error m →
      (execute_code amb globals code vars mode).1.traceback = some "" ∧
      (execute_code amb globals code vars mode).1.error = some ("SECURITY ERROR: " ++ m)) := by
  refine ⟨?_, ?_, ?_⟩
  · intro code mode m h
    rcases validate_error_cases h with h1 | h1 | h1 | h1
    · exact checkAlwaysBlocked_msg h1
    · exact (checkAdminImports_msg h1).1
    · exact checkBlockedFunctions_msg h1
    · exact checkDangerousPatterns_msg h1
  · intro code m h
    exact (checkAdminImports_msg h).2
  · intro amb globals code vars mode m h
    unfold execute_code
    rw [h]
    exact ⟨rfl, rfl⟩

/-- Witness for C9 amended: the ctypes denial message decomposes as
reason text after the fixed prefix, the `import os` privileged denial
carries the allowed-module list, and the executed `import os` denial
response has an empty traceback. -/
theorem claim_C9_witness :
    (∃ rest : String,
      "Security violation: Module \x27ctypes\x27 is always blocked for security reasons" =
        "Security violation: " ++ rest) ∧
    (∃ pre : String,
      "Security violation: Import of \x27os\x27 requires Administrator role. Allowed modules: " ++ allowedModulesStr =
        pre ++ ("requires Administrator role. Allowed modules: " ++ allowedModulesStr)) ∧
    (execute_code ambOk [] "import os" Option.none "RESTRICTED").1.traceback = some "" := by
  refine ⟨?_, ?_, ?_⟩
  · exact claim_C9_amended.1 "import ctypes" "ADMIN"
      "Security violation: Module \x27ctypes\x27 is always blocked for security reasons" rfl
  · exact claim_C9_amended.2.1 "import os"
      ("Security violation: Import of \x27os\x27 requires Administrator role. Allowed modules: " ++ allowedModulesStr) rfl
  · exact (claim_C9_amended.2.2 ambOk [] "import os" Option.none "RESTRICTED"
      ("Security violation: Import of \x27os\x27 requires Administrator role. Allowed modules: " ++ allowedModulesStr) rfl).1

end PyBridge
